import Mathlib

/-!
Shallow embedding of the hazard-tracking core of `src/app.py` from the
PNDMS-streamlit repository, together with its password-strength check,
and theorems settling the frozen claims about it.

Conventions used throughout the embedding:
* JSON numbers are modelled as `Rat`, JSON strings as `String`.
* A dictionary key that the Python code reads with `d.get(k, default)` is
  modelled as an `Option` field consumed with `Option.getD default`;
  a key read with `d[k]` (which raises `KeyError` when absent) is an
  `Option` field whose `none` case produces `Except.error ()`.
* A Python function that can let an exception escape to its caller is
  modelled as returning `Except Unit _`, with `Except.error ()` standing
  for the propagating exception; a function that cannot raise in the
  modelled fragment returns the value directly.
-/

/-- Result of one upstream HTTP GET as seen by a fetch function.
`transportError` models `requests.get` raising a connection-level or
timeout exception before any response exists; `success status body`
models a completed response, where `body = Except.error ()` models a
body that is not valid JSON (`response.json()` raises) and
`body = Except.ok b` models the parsed JSON value. -/
inductive HttpResponse (β : Type) where
  | transportError : HttpResponse β
  | success (status : Nat) (body : Except Unit β) : HttpResponse β

/-! ### Seismic adapter: `fetch_earthquake_data` (src/app.py lines 182-207) -/

/-- The `quake["geometry"]` object; `coordinates = none` models a missing
`"coordinates"` key, which makes the subscription raise `KeyError`. -/
structure QuakeGeometry where
  coordinates : Option (List Rat)
  deriving DecidableEq

/-- The `quake["properties"]` object; `none` fields model missing keys
(`KeyError` on subscription). -/
structure QuakeProperties where
  place : Option String
  mag : Option Rat
  deriving DecidableEq

/-- One element of the USGS `features` array; `none` models a missing
`"geometry"` / `"properties"` key. -/
structure QuakeFeature where
  geometry : Option QuakeGeometry
  properties : Option QuakeProperties
  deriving DecidableEq

/-- The parsed USGS body; `data.get("features", [])`. -/
structure EarthquakeBody where
  features : Option (List QuakeFeature)
  deriving DecidableEq

/-- The normalized earthquake record appended to `earthquake_list`. -/
structure EarthquakeRecord where
  place : String
  magnitude : Rat
  latitude : Rat
  longitude : Rat
  deriving DecidableEq

/-- One iteration of the earthquake loop body:
`coords = quake["geometry"]["coordinates"]` followed by the record
literal reading `quake["properties"]["place"]`, `["mag"]`, `coords[1]`,
`coords[0]`.  Any missing key (`KeyError`) or out-of-range index
(`IndexError`) raises, modelled as `Except.error ()`. -/
def quakeRecord (quake : QuakeFeature) : Except Unit EarthquakeRecord :=
  match quake.geometry with
  | none => Except.error ()
  | some geometry =>
    match geometry.coordinates with
    | none => Except.error ()
    | some coords =>
      match quake.properties with
      | none => Except.error ()
      | some properties =>
        match properties.place, properties.mag, coords.get? 1, coords.get? 0 with
        | some place, some mag, some lat, some lon =>
          Except.ok ⟨place, mag, lat, lon⟩
        | _, _, _, _ => Except.error ()

/-- The earthquake loop `for quake in earthquakes[:10]` (applied to an
already-truncated list): records accumulate in order and the first
raising record aborts the whole loop, as in Python. -/
def quakeRecords : List QuakeFeature → Except Unit (List EarthquakeRecord)
  | [] => Except.ok []
  | quake :: rest =>
    match quakeRecord quake with
    | Except.error e => Except.error e
    | Except.ok r =>
      match quakeRecords rest with
      | Except.error e => Except.error e
      | Except.ok rs => Except.ok (r :: rs)

/-- `fetch_earthquake_data`: `requests.get` is NOT inside a `try`, so a
transport error propagates (`Except.error ()`); a non-200 status returns
`[]`; only `response.json()` is guarded by `try`, returning `[]` on a
malformed body; then the loop over `data.get("features", [])[:10]`. -/
def fetch_earthquake_data (resp : HttpResponse EarthquakeBody) :
    Except Unit (List EarthquakeRecord) :=
  match resp with
  | HttpResponse.transportError => Except.error ()
  | HttpResponse.success status body =>
    if status ≠ 200 then Except.ok []
    else
      match body with
      | Except.error _ => Except.ok []
      | Except.ok data => quakeRecords ((data.features.getD []).take 10)

/-! ### Wildfire adapter: `fetch_wildfire_data` (src/app.py lines 319-346) -/

/-- One element of `event.get("geometry", [])`; `coordinates` read with
`g.get("coordinates", [])`. -/
structure WildfireGeometryPoint where
  coordinates : Option (List Rat)
  deriving DecidableEq

/-- One element of `event.get("sources", [{}])`; `url` read with
`.get("url", "No source available")`. -/
structure WildfireSource where
  url : Option String
  deriving DecidableEq

/-- One element of the EONET `events` array; all keys read with `.get`. -/
structure WildfireEvent where
  title : Option String
  geometry : Option (List WildfireGeometryPoint)
  sources : Option (List WildfireSource)
  deriving DecidableEq

/-- The parsed EONET body; `data.get("events", [])`. -/
structure WildfireBody where
  events : Option (List WildfireEvent)
  deriving DecidableEq

/-- The normalized wildfire record appended to `wildfire_list`. -/
structure WildfireRecord where
  title : String
  latitude : Rat
  longitude : Rat
  source : String
  deriving DecidableEq

/-- `event.get("sources", [{}])[0].get("url", "No source available")`:
a missing `"sources"` key defaults to `[{}]` whose first element has no
`"url"`; a PRESENT but EMPTY sources list makes `[0]` raise
`IndexError`, modelled as `Except.error ()`. -/
def wildfireSourceUrl (event : WildfireEvent) : Except Unit String :=
  match event.sources with
  | none => Except.ok "No source available"
  | some [] => Except.error ()
  | some (s :: _) => Except.ok (s.url.getD "No source available")

/-- The inner loop `for g in event.get("geometry", [])`: a point whose
coordinates are not a 2-element list is skipped; a kept point appends a
record with `latitude = coords[1]`, `longitude = coords[0]` (the
`List.getD` defaults are unreachable under the length-2 guard), and the
source-URL expression is evaluated only when a record is appended. -/
def wildfirePointRecords : List WildfireGeometryPoint → WildfireEvent →
    Except Unit (List WildfireRecord)
  | [], _ => Except.ok []
  | g :: rest, event =>
    let coords := g.coordinates.getD []
    if coords.length = 2 then
      match wildfireSourceUrl event with
      | Except.error e => Except.error e
      | Except.ok src =>
        match wildfirePointRecords rest event with
        | Except.error e => Except.error e
        | Except.ok rs =>
          Except.ok (⟨event.title.getD "Wildfire", coords.getD 1 0, coords.getD 0 0, src⟩ :: rs)
    else wildfirePointRecords rest event

/-- All records produced by one upstream wildfire event (its geometry
fan-out). -/
def wildfireEventRecords (event : WildfireEvent) : Except Unit (List WildfireRecord) :=
  wildfirePointRecords (event.geometry.getD []) event

/-- The outer loop `for event in events[:10]` (applied to an
already-truncated list), concatenating each event's fan-out in order. -/
def wildfireEvents : List WildfireEvent → Except Unit (List WildfireRecord)
  | [] => Except.ok []
  | event :: rest =>
    match wildfireEventRecords event with
    | Except.error e => Except.error e
    | Except.ok rs =>
      match wildfireEvents rest with
      | Except.error e => Except.error e
      | Except.ok more => Except.ok (rs ++ more)

/-- `fetch_wildfire_data`: same guard structure as the earthquake fetch
(`requests.get` outside any `try`, so transport errors propagate;
non-200 returns `[]`; malformed JSON body returns `[]`), then the loop
over `data.get("events", [])[:10]` with per-point fan-out. -/
def fetch_wildfire_data (resp : HttpResponse WildfireBody) :
    Except Unit (List WildfireRecord) :=
  match resp with
  | HttpResponse.transportError => Except.error ()
  | HttpResponse.success status body =>
    if status ≠ 200 then Except.ok []
    else
      match body with
      | Except.error _ => Except.ok []
      | Except.ok data => wildfireEvents ((data.events.getD []).take 10)

/-! ### Cyclone adapter: `fetch_hurricane_data` (src/app.py lines 457-489) -/

/-- `feature.get("geometry", {})`; `coordinates` read with
`geometry.get("coordinates", [0, 0])`. -/
structure HurricaneGeometry where
  coordinates : Option (List Rat)
  deriving DecidableEq

/-- `feature.get("properties", {})`; every key read with `.get` and a
string default.  `windMph` is carried opaquely as a string. -/
structure HurricaneProperties where
  name : Option String
  fullIssue : Option String
  windMph : Option String
  category : Option String
  deriving DecidableEq

/-- One element of the NHC `features` array. -/
structure HurricaneFeature where
  properties : Option HurricaneProperties
  geometry : Option HurricaneGeometry
  deriving DecidableEq

/-- The parsed NHC body; `data.get("features", [])`. -/
structure HurricaneBody where
  features : Option (List HurricaneFeature)
  deriving DecidableEq

/-- The normalized hurricane record appended to `hurricanes`.  The
location fields are plain numbers: a returned record always carries a
latitude and a longitude. -/
structure HurricaneRecord where
  name : String
  latitude : Rat
  longitude : Rat
  advisory : String
  wind_speed : String
  category : String
  deriving DecidableEq

/-- One iteration of the hurricane loop body: `.get` defaults for every
field, `coordinates = geometry.get("coordinates", [0, 0])`, then
`coordinates[1]` / `coordinates[0]`, which raise `IndexError`
(`Except.error ()`) when the list is shorter than 2. -/
def hurricaneRecord (feature : HurricaneFeature) : Except Unit HurricaneRecord :=
  let properties := feature.properties.getD ⟨none, none, none, none⟩
  let geometry := feature.geometry.getD ⟨none⟩
  let coordinates := geometry.coordinates.getD [0, 0]
  match coordinates.get? 1, coordinates.get? 0 with
  | some lat, some lon =>
    Except.ok ⟨properties.name.getD "Unknown Storm", lat, lon,
               properties.fullIssue.getD "No advisory available.",
               properties.windMph.getD "Unknown Speed",
               properties.category.getD "Unknown Category"⟩
  | _, _ => Except.error ()

/-- The hurricane loop `for feature in data.get("features", [])`: no cap
is applied; the first raising record aborts the loop. -/
def hurricaneRecords : List HurricaneFeature → Except Unit (List HurricaneRecord)
  | [] => Except.ok []
  | feature :: rest =>
    match hurricaneRecord feature with
    | Except.error e => Except.error e
    | Except.ok r =>
      match hurricaneRecords rest with
      | Except.error e => Except.error e
      | Except.ok rs => Except.ok (r :: rs)

/-- `fetch_hurricane_data`: the whole request (`requests.get`,
`raise_for_status`, `response.json()`) is inside a `try` catching
`requests.exceptions.RequestException`, so transport errors and
timeouts, HTTP error statuses (`raise_for_status` raises for status
codes ≥ 400) and malformed JSON bodies (`requests` raises its
`JSONDecodeError`, a `RequestException` subclass) all return `[]`.
The parsing loop runs OUTSIDE the `try`. -/
def fetch_hurricane_data (resp : HttpResponse HurricaneBody) :
    Except Unit (List HurricaneRecord) :=
  match resp with
  | HttpResponse.transportError => Except.ok []
  | HttpResponse.success status body =>
    if 400 ≤ status then Except.ok []
    else
      match body with
      | Except.error _ => Except.ok []
      | Except.ok data => hurricaneRecords (data.features.getD [])

/-! ### Tsunami adapter: `fetch_tsunami_data` (src/app.py lines 605-629) -/

/-- One element of the NOAA tsunami array; every key is read with
`.get`, so a missing key never raises.  `earthquakeMagnitude = none`
(and `depth = none`) model a missing key, for which the Python code
stores the string sentinel `"N/A"`; `year = none` models the
`"Unknown Year"` sentinel; `latitude` / `longitude` are read with
one-argument `.get`, defaulting to `None`. -/
structure TsunamiEvent where
  locationName : Option String
  latitude : Option Rat
  longitude : Option Rat
  earthquakeMagnitude : Option Rat
  depth : Option Rat
  year : Option Int
  cause : Option String
  deriving DecidableEq

/-- The normalized tsunami record appended to `tsunamis`.  In
`magnitude` and `depth`, `none` stands for the stored `"N/A"` string
sentinel; in `year`, for `"Unknown Year"`. -/
structure TsunamiRecord where
  location : String
  latitude : Option Rat
  longitude : Option Rat
  magnitude : Option Rat
  depth : Option Rat
  year : Option Int
  cause : String
  deriving DecidableEq

/-- One iteration of the tsunami loop body: pure `.get` substitutions,
never raising. -/
def tsunamiRecord (event : TsunamiEvent) : TsunamiRecord :=
  ⟨event.locationName.getD "Unknown Location",
   event.latitude, event.longitude,
   event.earthquakeMagnitude, event.depth, event.year,
   event.cause.getD "No Advisory Available"⟩

/-- `fetch_tsunami_data`: the whole body, loop included, is inside a
`try` catching `requests.exceptions.RequestException`, so transport
errors, timeouts, error statuses (`raise_for_status`, ≥ 400) and
malformed JSON bodies all return `[]`; each event in the array becomes
exactly one record, with no cap. -/
def fetch_tsunami_data (resp : HttpResponse (List TsunamiEvent)) : List TsunamiRecord :=
  match resp with
  | HttpResponse.transportError => []
  | HttpResponse.success status body =>
    if 400 ≤ status then []
    else
      match body with
      | Except.error _ => []
      | Except.ok events => events.map tsunamiRecord

/-! ### Severity classifiers (src/app.py lines 286-297, 560-569, 720-727) -/

/-- `color = "green" if magnitude < 4 else "orange" if magnitude < 6 else "red"`
in `earthquakes()`. -/
def earthquakeMarkerColor (magnitude : Rat) : String :=
  if magnitude < 4 then "green" else if magnitude < 6 then "orange" else "red"

/-- `radius=magnitude * 2` of the earthquake `CircleMarker`. -/
def earthquakeMarkerRadius (magnitude : Rat) : Rat :=
  magnitude * 2

/-- The `category_colors` table in `hurricanes()`. -/
def category_colors : List (String × String) :=
  [("Tropical Depression", "green"),
   ("Tropical Storm", "orange"),
   ("Category 1", "yellow"),
   ("Category 2", "gold"),
   ("Category 3", "red"),
   ("Category 4", "darkred"),
   ("Category 5", "purple")]

/-- `marker_color = category_colors.get(category, "blue")`. -/
def hurricaneMarkerColor (category : String) : String :=
  (List.lookup category category_colors).getD "blue"

/-- The `marker_colors` conditional expression in `tsunamis()`:
`"blue"` when the stored magnitude is the `"N/A"` sentinel (modelled as
`none`), otherwise thresholds on `float(event["magnitude"])`. -/
def tsunamiMarkerColor (magnitude : Option Rat) : String :=
  match magnitude with
  | none => "blue"
  | some m =>
    if 8 ≤ m then "darkred"
    else if 13 / 2 ≤ m then "red"
    else if 5 ≤ m then "orange"
    else "yellow"

/-! ### Feed cache: `st.cache_data(ttl=600)` on each fetch function -/

/-- One memoized value of a `st.cache_data`-decorated zero-argument
function: the stored return value and the time it was stored. -/
structure CacheEntry (α : Type) where
  value : α
  fetchedAt : Nat
  deriving DecidableEq

/-- The shared time-to-live: `ttl=600` seconds on all four fetchers. -/
def cacheTTL : Nat := 600

/-- `st.cache_data(ttl=600)` lookup semantics for one cached function:
if a stored entry is younger than the TTL it is served unchanged and the
function is not called; otherwise the function runs and WHATEVER it
returns — including the empty list produced by a caught fetch failure —
is stored with timestamp `now`, replacing the entry wholesale.
`fetchResult` is the value the wrapped function returns when called at
`now`.  Returns the served value and the updated entry. -/
def getOrFetch {α : Type} (entry : Option (CacheEntry α)) (now : Nat)
    (fetchResult : α) : α × Option (CacheEntry α) :=
  match entry with
  | some e =>
    if now - e.fetchedAt < cacheTTL then (e.value, some e)
    else (fetchResult, some ⟨fetchResult, now⟩)
  | none => (fetchResult, some ⟨fetchResult, now⟩)

/-! ### Password strength: `is_password_strong` (src/app.py lines 17-49) -/

/-- `MIN_PASSWORD_LENGTH = 8`. -/
def MIN_PASSWORD_LENGTH : Nat := 8

/-- The regex class `[A-Z]` (ASCII code points 65-90). -/
def isUppercaseChar (c : Char) : Bool :=
  decide (65 ≤ c.toNat ∧ c.toNat ≤ 90)

/-- The regex class `[a-z]` (ASCII code points 97-122). -/
def isLowercaseChar (c : Char) : Bool :=
  decide (97 ≤ c.toNat ∧ c.toNat ≤ 122)

/-- The regex class `[0-9]` (ASCII code points 48-57). -/
def isDigitChar (c : Char) : Bool :=
  decide (48 ≤ c.toNat ∧ c.toNat ≤ 57)

/-- The characters of the regex class in `SPECIAL_CHARS`. -/
def SPECIAL_CHARS : List Char :=
  ['!', '@', '#', '$', '%', '^', '&', '*', '(', ')', ',', '.', '?',
   '\"', ':', '\x7b', '\x7d', '|', '<', '>']

/-- `re.search(SPECIAL_CHARS, password)` succeeds iff some character of
the password is in the class. -/
def isSpecialChar (c : Char) : Bool :=
  SPECIAL_CHARS.contains c

/-- The `messages` list accumulated by `is_password_strong`, in source
order (uppercase, lowercase, number, special); an entry is added exactly
when the corresponding `re.search` finds nothing.  The `checks` list of
the source is nonempty exactly when `messages` is, so `messages` alone
determines the outcome. -/
def passwordMessages (password : String) : List String :=
  (if password.data.any isUppercaseChar then [] else ["uppercase letter"]) ++
  (if password.data.any isLowercaseChar then [] else ["lowercase letter"]) ++
  (if password.data.any isDigitChar then [] else ["number"]) ++
  (if password.data.any isSpecialChar then [] else ["special character"])

/-- `is_password_strong`: length gate first (with the f-string message
for `MIN_PASSWORD_LENGTH = 8`), then the four character-class checks. -/
def is_password_strong (password : String) : Bool × String :=
  if password.length < MIN_PASSWORD_LENGTH then
    (false, "Password must be at least 8 characters long")
  else if (passwordMessages password).isEmpty then
    (true, "Password meets strength requirements")
  else
    (false, "Password must contain: " ++ String.intercalate ", " (passwordMessages password))

/-! ### Concrete inputs used by counterexamples and witnesses -/

/-- A tsunami array element with every key missing. -/
def blankTsunamiEvent : TsunamiEvent :=
  ⟨none, none, none, none, none, none, none⟩

/-- A successful NOAA response carrying eleven tsunami events. -/
def tsunamiElevenResponse : HttpResponse (List TsunamiEvent) :=
  HttpResponse.success 200 (Except.ok (List.replicate 11 blankTsunamiEvent))

/-- A well-formed USGS feature (place "LA", magnitude 5.2, at lon 10 lat 20). -/
def quakeGood : QuakeFeature :=
  ⟨some ⟨some [10, 20]⟩, some ⟨some "LA", some (26 / 5)⟩⟩

/-- A USGS feature whose `"geometry"` key is missing. -/
def quakeBad : QuakeFeature :=
  ⟨none, some ⟨some "Nowhere", some 5⟩⟩

/-- A successful USGS response with one well-formed feature. -/
def quakeGoodResponse : HttpResponse EarthquakeBody :=
  HttpResponse.success 200 (Except.ok ⟨some [quakeGood]⟩)

/-- A geometry point with a 2-element coordinate pair. -/
def validWildfirePoint : WildfireGeometryPoint :=
  ⟨some [1, 2]⟩

/-- A geometry point whose coordinates are a 3-element list. -/
def invalidWildfirePoint : WildfireGeometryPoint :=
  ⟨some [1, 2, 3]⟩

/-- A single upstream wildfire event with eleven valid geometry points. -/
def elevenPointWildfireEvent : WildfireEvent :=
  ⟨some "Big Fire", some (List.replicate 11 validWildfirePoint), none⟩

/-- A successful EONET response with one event of eleven points. -/
def wildfireElevenResponse : HttpResponse WildfireBody :=
  HttpResponse.success 200 (Except.ok ⟨some [elevenPointWildfireEvent]⟩)

/-- The eleven records that `elevenPointWildfireEvent` fans out into. -/
def wildfireElevenOutput : List WildfireRecord :=
  List.replicate 11 ⟨"Big Fire", 2, 1, "No source available"⟩

/-- A wildfire event with three geometry points, one of them malformed. -/
def mixedWildfireEvent : WildfireEvent :=
  ⟨some "Fire B", some [validWildfirePoint, invalidWildfirePoint, ⟨some [5, 6]⟩], none⟩

/-- A wildfire event with three valid geometry points. -/
def threePointWildfireEvent : WildfireEvent :=
  ⟨some "Fire A", some [⟨some [1, 2]⟩, ⟨some [3, 4]⟩, ⟨some [5, 6]⟩], none⟩

/-- A tsunami record as fetched from a fully populated event. -/
def sampleTsunamiRecord : TsunamiRecord :=
  ⟨"Samoa", some (-14), some (-172), some 8, some 30, some 2009, "Earthquake"⟩

/-! ### Helper lemmas -/

/-- A successful run of the earthquake loop yields one record per
processed feature. -/
theorem quakeRecords_length (l : List QuakeFeature) (r : List EarthquakeRecord)
    (h : quakeRecords l = Except.ok r) : r.length = l.length := by
  induction l generalizing r with
  | nil =>
    simp only [quakeRecords] at h
    cases h
    rfl
  | cons quake rest ih =>
    simp only [quakeRecords] at h
    cases hq : quakeRecord quake with
    | error e => rw [hq] at h; cases h
    | ok rec =>
      rw [hq] at h
      cases hr : quakeRecords rest with
      | error e => rw [hr] at h; cases h
      | ok rs =>
        rw [hr] at h
        cases h
        simp [ih rs hr]

/-- A successful run of the hurricane loop yields one record per
feature. -/
theorem hurricaneRecords_length (l : List HurricaneFeature) (r : List HurricaneRecord)
    (h : hurricaneRecords l = Except.ok r) : r.length = l.length := by
  induction l generalizing r with
  | nil =>
    simp only [hurricaneRecords] at h
    cases h
    rfl
  | cons feature rest ih =>
    simp only [hurricaneRecords] at h
    cases hq : hurricaneRecord feature with
    | error e => rw [hq] at h; cases h
    | ok rec =>
      rw [hq] at h
      cases hr : hurricaneRecords rest with
      | error e => rw [hr] at h; cases h
      | ok rs =>
        rw [hr] at h
        cases h
        simp [ih rs hr]

/-! ### Claim C6: seismic severity classifier -/

/-- Claim C6: for every seismic magnitude m the marker color is green
when m < 4, orange when 4 ≤ m < 6 and red when m ≥ 6, and the marker
radius is 2·m. -/
theorem seismic_severity_classifier :
    (∀ m : Rat, m < 4 → earthquakeMarkerColor m = "green") ∧
    (∀ m : Rat, 4 ≤ m → m < 6 → earthquakeMarkerColor m = "orange") ∧
    (∀ m : Rat, 6 ≤ m → earthquakeMarkerColor m = "red") ∧
    (∀ m : Rat, earthquakeMarkerRadius m = 2 * m) := by
  refine ⟨?_, ?_, ?_, ?_⟩
  · intro m h
    simp [earthquakeMarkerColor, h]
  · intro m h4 h6
    simp only [earthquakeMarkerColor]
    rw [if_neg (by linarith), if_pos h6]
  · intro m h
    simp only [earthquakeMarkerColor]
    rw [if_neg (by linarith), if_neg (by linarith)]
  · intro m
    simp [earthquakeMarkerRadius, mul_comm]

/-- Witness for C6: the concrete magnitude-5.2 event is classified
orange with marker radius 10.4 (= 52/5). -/
theorem seismic_severity_classifier_witness :
    earthquakeMarkerColor (26 / 5) = "orange" ∧
    earthquakeMarkerRadius (26 / 5) = 52 / 5 := by
  constructor
  · exact seismic_severity_classifier.2.1 (26 / 5) (by norm_num) (by norm_num)
  · rw [seismic_severity_classifier.2.2.2 (26 / 5)]
    norm_num

/-! ### Claim C7: cyclone severity classifier -/

/-- Claim C7: the cyclone classifier maps each known category label
through the fixed table and every other label to the blue fallback,
totally and without error. -/
theorem cyclone_severity_classifier :
    hurricaneMarkerColor "Tropical Depression" = "green" ∧
    hurricaneMarkerColor "Tropical Storm" = "orange" ∧
    hurricaneMarkerColor "Category 1" = "yellow" ∧
    hurricaneMarkerColor "Category 2" = "gold" ∧
    hurricaneMarkerColor "Category 3" = "red" ∧
    hurricaneMarkerColor "Category 4" = "darkred" ∧
    hurricaneMarkerColor "Category 5" = "purple" ∧
    (∀ c : String, c ∉ category_colors.map Prod.fst → hurricaneMarkerColor c = "blue") := by
  refine ⟨rfl, rfl, rfl, rfl, rfl, rfl, rfl, ?_⟩
  intro c hc
  simp only [category_colors, List.map, List.mem_cons, List.not_mem_nil, or_false,
    not_or] at hc
  obtain ⟨h1, h2, h3, h4, h5, h6, h7⟩ := hc
  have e1 : (c == "Tropical Depression") = false := beq_eq_false_iff_ne.mpr h1
  have e2 : (c == "Tropical Storm") = false := beq_eq_false_iff_ne.mpr h2
  have e3 : (c == "Category 1") = false := beq_eq_false_iff_ne.mpr h3
  have e4 : (c == "Category 2") = false := beq_eq_false_iff_ne.mpr h4
  have e5 : (c == "Category 3") = false := beq_eq_false_iff_ne.mpr h5
  have e6 : (c == "Category 4") = false := beq_eq_false_iff_ne.mpr h6
  have e7 : (c == "Category 5") = false := beq_eq_false_iff_ne.mpr h7
  simp [hurricaneMarkerColor, category_colors, List.lookup,
    e1, e2, e3, e4, e5, e6, e7]

/-- Witness for C7: the unrecognized label "Category 6" maps to the blue
fallback. -/
theorem cyclone_severity_classifier_witness :
    hurricaneMarkerColor "Category 6" = "blue" :=
  cyclone_severity_classifier.2.2.2.2.2.2.2 "Category 6" (by decide)

/-! ### Claim C8: tsunami severity classifier -/

/-- Claim C8: the tsunami classifier yields blue when the magnitude is
the absent sentinel, darkred when m ≥ 8, red when 6.5 ≤ m < 8, orange
when 5 ≤ m < 6.5 and yellow otherwise, and the adapter stores a missing
upstream magnitude as the absent sentinel, not as zero. -/
theorem tsunami_severity_classifier :
    tsunamiMarkerColor none = "blue" ∧
    (∀ m : Rat, 8 ≤ m → tsunamiMarkerColor (some m) = "darkred") ∧
    (∀ m : Rat, 13 / 2 ≤ m → m < 8 → tsunamiMarkerColor (some m) = "red") ∧
    (∀ m : Rat, 5 ≤ m → m < 13 / 2 → tsunamiMarkerColor (some m) = "orange") ∧
    (∀ m : Rat, m < 5 → tsunamiMarkerColor (some m) = "yellow") ∧
    (∀ event : TsunamiEvent, event.earthquakeMagnitude = none →
      (tsunamiRecord event).magnitude = none) := by
  refine ⟨rfl, ?_, ?_, ?_, ?_, ?_⟩
  · intro m h
    simp [tsunamiMarkerColor, h]
  · intro m h1 h2
    simp only [tsunamiMarkerColor]
    rw [if_neg (by linarith), if_pos h1]
  · intro m h1 h2
    simp only [tsunamiMarkerColor]
    rw [if_neg (by linarith), if_neg (by linarith), if_pos h1]
  · intro m h
    simp only [tsunamiMarkerColor]
    rw [if_neg (by linarith), if_neg (by linarith), if_neg (by linarith)]
  · intro event h
    simp [tsunamiRecord, h]

/-- Witness for C8: a record built from an event with no
`earthquakeMagnitude` key carries the absent sentinel and is classified
blue; magnitudes 9, 7, 6 and 4 land in their bands. -/
theorem tsunami_severity_classifier_witness :
    (tsunamiRecord blankTsunamiEvent).magnitude = none ∧
    tsunamiMarkerColor (tsunamiRecord blankTsunamiEvent).magnitude = "blue" ∧
    tsunamiMarkerColor (some 9) = "darkred" ∧
    tsunamiMarkerColor (some 7) = "red" ∧
    tsunamiMarkerColor (some 6) = "orange" ∧
    tsunamiMarkerColor (some 4) = "yellow" := by
  refine ⟨tsunami_severity_classifier.2.2.2.2.2 blankTsunamiEvent rfl, rfl,
    tsunami_severity_classifier.2.1 9 (by norm_num),
    tsunami_severity_classifier.2.2.1 7 (by norm_num) (by norm_num),
    tsunami_severity_classifier.2.2.2.1 6 (by norm_num) (by norm_num),
    tsunami_severity_classifier.2.2.2.2.1 4 (by norm_num)⟩

/-! ### Claim C9: cyclone default location -/

/-- Claim C9: a cyclone feature whose geometry or coordinates field is
missing still yields a record, with latitude 0 and longitude 0; a
returned record always carries a concrete (non-optional) location. -/
theorem cyclone_default_location :
    ∀ feature : HurricaneFeature,
      (feature.geometry = none ∨
        ∃ g, feature.geometry = some g ∧ g.coordinates = none) →
      ∃ r, hurricaneRecord feature = Except.ok r ∧ r.latitude = 0 ∧ r.longitude = 0 := by
  intro feature h
  obtain ⟨props, geom⟩ := feature
  have hc : geom = none ∨ geom = some ⟨none⟩ := by
    rcases h with h1 | ⟨g, h2, h3⟩
    · exact Or.inl h1
    · right
      have hg : geom = some g := h2
      rw [hg]
      obtain ⟨gc⟩ := g
      have hgc : gc = none := h3
      rw [hgc]
  rcases hc with h' | h' <;> rw [h'] <;> exact ⟨_, rfl, rfl, rfl⟩

/-- Witness for C9: a feature with neither properties nor geometry
produces a record located at (0, 0). -/
theorem cyclone_default_location_witness :
    ∃ r, hurricaneRecord ⟨none, none⟩ = Except.ok r ∧ r.latitude = 0 ∧ r.longitude = 0 :=
  cyclone_default_location ⟨none, none⟩ (Or.inl rfl)

/-! ### Claim C10: password strength -/

/-- Claim C10: `is_password_strong` accepts exactly the passwords of
length at least 8 containing an uppercase letter, a lowercase letter, a
digit and a special character; a rejected password comes with a message
naming what failed (the length message, or the joined list of the
missing character classes). -/
theorem password_strength_spec :
    ∀ p : String,
      ((is_password_strong p).fst = true ↔
        (8 ≤ p.length ∧ (∃ c ∈ p.data, isUppercaseChar c = true) ∧
          (∃ c ∈ p.data, isLowercaseChar c = true) ∧
          (∃ c ∈ p.data, isDigitChar c = true) ∧
          (∃ c ∈ p.data, isSpecialChar c = true))) ∧
      (p.length < 8 →
        (is_password_strong p).snd = "Password must be at least 8 characters long") ∧
      (8 ≤ p.length → (is_password_strong p).fst = false →
        (is_password_strong p).snd =
            "Password must contain: " ++ String.intercalate ", " (passwordMessages p) ∧
          passwordMessages p ≠ []) := by
  intro p
  have hmsg : passwordMessages p = [] ↔
      (p.data.any isUppercaseChar = true ∧ p.data.any isLowercaseChar = true ∧
        p.data.any isDigitChar = true ∧ p.data.any isSpecialChar = true) := by
    unfold passwordMessages
    split_ifs with hA hB hC hD <;> simp_all
  by_cases hl : p.length < 8
  · have hout : is_password_strong p =
        (false, "Password must be at least 8 characters long") := by
      simp [is_password_strong, MIN_PASSWORD_LENGTH, hl]
    refine ⟨?_, ?_, ?_⟩
    · rw [hout]
      constructor
      · intro h
        cases h
      · intro h
        omega
    · intro _
      rw [hout]
    · intro h
      omega
  · have hl8 : 8 ≤ p.length := by omega
    by_cases hn : passwordMessages p = []
    · have hout : is_password_strong p =
          (true, "Password meets strength requirements") := by
        simp [is_password_strong, MIN_PASSWORD_LENGTH, hl, hn]
      obtain ⟨hA, hB, hC, hD⟩ := hmsg.mp hn
      rw [List.any_eq_true] at hA hB hC hD
      refine ⟨?_, ?_, ?_⟩
      · rw [hout]
        constructor
        · intro _
          exact ⟨hl8, hA, hB, hC, hD⟩
        · intro _
          rfl
      · intro h
        omega
      · intro _ hfalse
        rw [hout] at hfalse
        cases hfalse
    · have hout : is_password_strong p =
          (false, "Password must contain: " ++
            String.intercalate ", " (passwordMessages p)) := by
        simp [is_password_strong, MIN_PASSWORD_LENGTH, hl, hn]
      refine ⟨?_, ?_, ?_⟩
      · rw [hout]
        constructor
        · intro h
          cases h
        · intro hr
          obtain ⟨_, hA, hB, hC, hD⟩ := hr
          exact absurd (hmsg.mpr ⟨List.any_eq_true.mpr hA, List.any_eq_true.mpr hB,
            List.any_eq_true.mpr hC, List.any_eq_true.mpr hD⟩) hn
      · intro h
        omega
      · intro _ _
        rw [hout]
        exact ⟨rfl, hn⟩

/-- Witness for C10: "Aa1!aaaa" is accepted; "aaaaaaaa" is rejected with
a message naming the missing classes; "aa" is rejected for length. -/
theorem password_strength_spec_witness :
    (is_password_strong "Aa1!aaaa").fst = true ∧
    (is_password_strong "aa").snd = "Password must be at least 8 characters long" ∧
    (is_password_strong "aaaaaaaa").snd =
      "Password must contain: " ++
        String.intercalate ", " (passwordMessages "aaaaaaaa") := by
  refine ⟨(password_strength_spec "Aa1!aaaa").1.mpr (by decide),
    (password_strength_spec "aa").2.1 (by decide),
    ((password_strength_spec "aaaaaaaa").2.2 (by decide) (by decide)).1⟩

/-! ### Claim C1: per-fetch record cap (corrected) -/

/-- Counterexample to C1 as stated: a tsunami fetch of eleven upstream
events returns eleven records — the tsunami fetch applies no 10-record
cap, so the normalized list can exceed length 10. -/
theorem tsunami_fetch_exceeds_ten :
    10 < (fetch_tsunami_data tsunamiElevenResponse).length := by
  decide

/-- Amended C1: only the seismic fetch caps its record count at 10; the
wildfire fetch truncates to the first 10 upstream events but can still
return more than 10 records through geometry fan-out; the cyclone and
tsunami fetches return one record per upstream record with no cap. -/
theorem fetch_record_caps :
    (∀ (resp : HttpResponse EarthquakeBody) (l : List EarthquakeRecord),
        fetch_earthquake_data resp = Except.ok l → l.length ≤ 10) ∧
    (∀ events : List TsunamiEvent,
        (fetch_tsunami_data (HttpResponse.success 200 (Except.ok events))).length =
          events.length) ∧
    (∀ (data : HurricaneBody) (l : List HurricaneRecord),
        fetch_hurricane_data (HttpResponse.success 200 (Except.ok data)) = Except.ok l →
        l.length = (data.features.getD []).length) ∧
    (fetch_wildfire_data wildfireElevenResponse = Except.ok wildfireElevenOutput ∧
      10 < wildfireElevenOutput.length) := by
  refine ⟨?_, ?_, ?_, ?_, ?_⟩
  · intro resp l h
    cases resp with
    | transportError => simp [fetch_earthquake_data] at h
    | success status body =>
      simp only [fetch_earthquake_data] at h
      by_cases hs : status ≠ 200
      · rw [if_pos hs] at h
        cases h
        simp
      · rw [if_neg hs] at h
        cases body with
        | error e =>
          cases h
          simp
        | ok data =>
          rw [quakeRecords_length _ _ h, List.length_take]
          omega
  · intro events
    simp [fetch_tsunami_data]
  · intro data l h
    simp only [fetch_hurricane_data] at h
    rw [if_neg (by omega)] at h
    exact hurricaneRecords_length _ _ h
  · rfl
  · decide

/-- Witness for the amended C1: a one-feature seismic response yields a
one-record list, whose length is within the cap. -/
theorem fetch_record_caps_witness :
    fetch_earthquake_data quakeGoodResponse = Except.ok [⟨"LA", 26 / 5, 20, 10⟩] ∧
    ([(⟨"LA", 26 / 5, 20, 10⟩ : EarthquakeRecord)]).length ≤ 10 :=
  ⟨rfl, fetch_record_caps.1 quakeGoodResponse _ rfl⟩

/-! ### Claim C2: failure handling of the fetch functions (corrected) -/

/-- Counterexample to C2 as stated: a transport error during the seismic
fetch is not caught (`requests.get` is outside any `try`), so the
exception propagates instead of an empty list being returned. -/
theorem seismic_transport_error_propagates :
    fetch_earthquake_data HttpResponse.transportError = Except.error () ∧
    fetch_earthquake_data HttpResponse.transportError ≠ Except.ok [] := by
  refine ⟨rfl, ?_⟩
  intro h
  simp [fetch_earthquake_data] at h

/-- Amended C2: non-200 statuses and malformed JSON bodies yield an
empty list for the seismic and wildfire fetches, and the cyclone and
tsunami fetches return an empty list for every caught request failure
(transport error, timeout, error status ≥ 400, malformed body); but a
transport error or timeout during the seismic or wildfire fetch raises
and propagates to the caller. -/
theorem fetch_failure_behavior :
    (∀ (status : Nat) (body : Except Unit EarthquakeBody), status ≠ 200 →
        fetch_earthquake_data (HttpResponse.success status body) = Except.ok []) ∧
    (∀ status : Nat,
        fetch_earthquake_data (HttpResponse.success status (Except.error ())) = Except.ok []) ∧
    (∀ (status : Nat) (body : Except Unit WildfireBody), status ≠ 200 →
        fetch_wildfire_data (HttpResponse.success status body) = Except.ok []) ∧
    (∀ status : Nat,
        fetch_wildfire_data (HttpResponse.success status (Except.error ())) = Except.ok []) ∧
    (fetch_hurricane_data HttpResponse.transportError = Except.ok [] ∧
      (∀ (status : Nat) (body : Except Unit HurricaneBody), 400 ≤ status →
        fetch_hurricane_data (HttpResponse.success status body) = Except.ok []) ∧
      (∀ status : Nat,
        fetch_hurricane_data (HttpResponse.success status (Except.error ())) = Except.ok [])) ∧
    (fetch_tsunami_data HttpResponse.transportError = [] ∧
      (∀ (status : Nat) (body : Except Unit (List TsunamiEvent)), 400 ≤ status →
        fetch_tsunami_data (HttpResponse.success status body) = []) ∧
      (∀ status : Nat,
        fetch_tsunami_data (HttpResponse.success status (Except.error ())) = [])) ∧
    (fetch_earthquake_data HttpResponse.transportError = Except.error () ∧
      fetch_wildfire_data HttpResponse.transportError = Except.error ()) := by
  refine ⟨?_, ?_, ?_, ?_, ⟨rfl, ?_, ?_⟩, ⟨rfl, ?_, ?_⟩, rfl, rfl⟩
  · intro status body h
    simp [fetch_earthquake_data, h]
  · intro status
    by_cases h : status = 200 <;> simp [fetch_earthquake_data, h]
  · intro status body h
    simp [fetch_wildfire_data, h]
  · intro status
    by_cases h : status = 200 <;> simp [fetch_wildfire_data, h]
  · intro status body h
    simp [fetch_hurricane_data, h]
  · intro status
    by_cases h : 400 ≤ status <;> simp [fetch_hurricane_data, h]
  · intro status body h
    simp [fetch_tsunami_data, h]
  · intro status
    by_cases h : 400 ≤ status <;> simp [fetch_tsunami_data, h]

/-- Witness for the amended C2: a 404 with a malformed body yields an
empty seismic list, and a 500 yields an empty cyclone list. -/
theorem fetch_failure_behavior_witness :
    fetch_earthquake_data (HttpResponse.success 404 (Except.error ())) = Except.ok [] ∧
    fetch_hurricane_data (HttpResponse.success 500 (Except.error ())) = Except.ok [] := by
  obtain ⟨h1, _, _, _, ⟨_, h5, _⟩, _, _⟩ := fetch_failure_behavior
  exact ⟨h1 404 (Except.error ()) (by decide), h5 500 (Except.error ()) (by decide)⟩

/-! ### Claim C3: cache behavior on failed fetch (corrected) -/

/-- Counterexample to C3 as stated: with a cached tsunami entry from
time 0, a lookup at time 600 (TTL expired) during which the fetch fails
(transport error, caught, returning `[]`) REPLACES the entry with the
empty list and a fresh timestamp — the failed attempt does not leave the
entry untouched, and what replaced it was not a successful fetch. -/
theorem cache_failed_fetch_replaces_entry :
    (getOrFetch (some ⟨[sampleTsunamiRecord], 0⟩) 600
        (fetch_tsunami_data HttpResponse.transportError)).2 = some ⟨[], 600⟩ ∧
    (getOrFetch (some ⟨[sampleTsunamiRecord], 0⟩) 600
        (fetch_tsunami_data HttpResponse.transportError)).2 ≠
      some ⟨[sampleTsunamiRecord], 0⟩ := by
  exact ⟨rfl, by decide⟩

/-- Amended C3: within the TTL window the entry is served unchanged and
no fetch runs; once the TTL has elapsed (or when no entry exists yet)
the lookup stores whatever the fetch returns — including the empty list
produced by a caught failure — with a fresh timestamp, replacing the
entry wholesale. -/
theorem cache_update_behavior :
    (∀ {α : Type} (e : CacheEntry α) (now : Nat) (r : α),
        now - e.fetchedAt < cacheTTL →
        getOrFetch (some e) now r = (e.value, some e)) ∧
    (∀ {α : Type} (e : CacheEntry α) (now : Nat) (r : α),
        ¬ now - e.fetchedAt < cacheTTL →
        getOrFetch (some e) now r = (r, some ⟨r, now⟩)) ∧
    (∀ {α : Type} (now : Nat) (r : α),
        getOrFetch (none : Option (CacheEntry α)) now r = (r, some ⟨r, now⟩)) := by
  refine ⟨?_, ?_, ?_⟩
  · intro α e now r h
    simp [getOrFetch, h]
  · intro α e now r h
    simp [getOrFetch, h]
  · intro α now r
    rfl

/-- Witness for the amended C3: a fresh entry is served unchanged at
time 10 and replaced at time 700. -/
theorem cache_update_behavior_witness :
    getOrFetch (some ⟨(7 : Nat), 0⟩) 10 99 = (7, some ⟨7, 0⟩) ∧
    getOrFetch (some ⟨(7 : Nat), 0⟩) 700 99 = (99, some ⟨99, 700⟩) :=
  ⟨cache_update_behavior.1 ⟨7, 0⟩ 10 99 (by decide),
   cache_update_behavior.2.1 ⟨7, 0⟩ 700 99 (by decide)⟩

/-! ### Claim C4: per-record error handling (corrected) -/

/-- Counterexample to C4 as stated: a seismic payload with one
well-formed feature followed by one missing its `"geometry"` key makes
the WHOLE fetch raise (`KeyError` escapes), losing the well-formed
record instead of skipping only the malformed one. -/
theorem seismic_malformed_record_fatal :
    fetch_earthquake_data
        (HttpResponse.success 200 (Except.ok ⟨some [quakeGood, quakeBad]⟩)) =
      Except.error () := rfl

/-- Amended C4: the wildfire adapter skips geometry points whose
coordinates are not a 2-element list, and the tsunami adapter converts
every record, substituting sentinels for missing fields; but a seismic
record missing a required key makes the whole seismic fetch raise. -/
theorem per_record_error_behavior :
    (∀ (event : WildfireEvent) (g : WildfireGeometryPoint)
        (rest : List WildfireGeometryPoint),
        (g.coordinates.getD []).length ≠ 2 →
        wildfirePointRecords (g :: rest) event = wildfirePointRecords rest event) ∧
    (∀ events : List TsunamiEvent,
        fetch_tsunami_data (HttpResponse.success 200 (Except.ok events)) =
          events.map tsunamiRecord) ∧
    (∀ (l : List QuakeFeature) (q : QuakeFeature), q ∈ l →
        quakeRecord q = Except.error () → quakeRecords l = Except.error ()) := by
  refine ⟨?_, ?_, ?_⟩
  · intro event g rest h
    simp [wildfirePointRecords, h]
  · intro events
    simp [fetch_tsunami_data]
  · intro l q
    induction l with
    | nil =>
      intro hmem _
      cases hmem
    | cons x rest ih =>
      intro hmem herr
      rcases List.mem_cons.mp hmem with h | h
      · subst h
        simp [quakeRecords, herr]
      · cases hx : quakeRecord x with
        | error e => simp [quakeRecords, hx]
        | ok r => simp [quakeRecords, hx, ih h herr]

/-- Witness for the amended C4: a malformed wildfire point contributes
nothing, and a single geometry-less seismic feature aborts its loop. -/
theorem per_record_error_behavior_witness :
    wildfirePointRecords [invalidWildfirePoint] mixedWildfireEvent =
      wildfirePointRecords [] mixedWildfireEvent ∧
    quakeRecords [quakeBad] = Except.error () := by
  obtain ⟨h1, _, h3⟩ := per_record_error_behavior
  exact ⟨h1 mixedWildfireEvent invalidWildfirePoint [] (by decide),
    h3 [quakeBad] quakeBad (by simp) rfl⟩

/-! ### Claim C5: wildfire geometry fan-out (corrected) -/

/-- Counterexample to C5 as stated: an upstream wildfire event with
three geometry points, one of whose coordinate lists has three elements,
yields two records, not three — malformed points are skipped rather than
fanned out. -/
theorem wildfire_invalid_point_not_fanned :
    (mixedWildfireEvent.geometry.getD []).length = 3 ∧
    Except.map List.length (wildfireEventRecords mixedWildfireEvent) = Except.ok 2 :=
  ⟨rfl, rfl⟩

/-- Each geometry point with a 2-element coordinate pair contributes
exactly one record carrying the event's title and source URL. -/
theorem wildfirePointRecords_all_valid (pts : List WildfireGeometryPoint)
    (event : WildfireEvent) (u : String)
    (hu : wildfireSourceUrl event = Except.ok u)
    (hv : ∀ g ∈ pts, (g.coordinates.getD []).length = 2) :
    ∃ l, wildfirePointRecords pts event = Except.ok l ∧ l.length = pts.length ∧
      ∀ r ∈ l, r.title = event.title.getD "Wildfire" ∧ r.source = u := by
  induction pts with
  | nil => exact ⟨[], rfl, rfl, by simp⟩
  | cons g rest ih =>
    have hg : (g.coordinates.getD []).length = 2 := hv g (by simp)
    obtain ⟨l, hl, hlen, hall⟩ := ih (fun x hx => hv x (by simp [hx]))
    refine ⟨⟨event.title.getD "Wildfire", (g.coordinates.getD []).getD 1 0,
      (g.coordinates.getD []).getD 0 0, u⟩ :: l, ?_, ?_, ?_⟩
    · simp [wildfirePointRecords, hg, hu, hl]
    · simp [hlen]
    · intro r hr
      rcases List.mem_cons.mp hr with h | h
      · subst h
        exact ⟨rfl, rfl⟩
      · exact hall r h

/-- Amended C5: for an upstream wildfire event whose sources list is not
present-but-empty and all of whose geometry points carry a 2-element
coordinate pair, the adapter produces exactly one record per geometry
point, all sharing the event's title and source URL (so 3 valid points
yield 3 records, not 1). -/
theorem wildfire_fanout_valid_points :
    ∀ event : WildfireEvent, event.sources ≠ some [] →
      (∀ g ∈ event.geometry.getD [], (g.coordinates.getD []).length = 2) →
      ∃ u l, wildfireSourceUrl event = Except.ok u ∧
        wildfireEventRecords event = Except.ok l ∧
        l.length = (event.geometry.getD []).length ∧
        ∀ r ∈ l, r.title = event.title.getD "Wildfire" ∧ r.source = u := by
  intro event hs hv
  have hu : ∃ u, wildfireSourceUrl event = Except.ok u := by
    cases hsources : event.sources with
    | none => exact ⟨"No source available", by simp [wildfireSourceUrl, hsources]⟩
    | some srcs =>
      cases srcs with
      | nil => exact absurd hsources hs
      | cons s rest =>
        exact ⟨s.url.getD "No source available", by simp [wildfireSourceUrl, hsources]⟩
  obtain ⟨u, hu⟩ := hu
  obtain ⟨l, hl, hlen, hall⟩ := wildfirePointRecords_all_valid _ event u hu hv
  exact ⟨u, l, hu, hl, hlen, hall⟩

/-- Witness for the amended C5: a concrete event with three valid
geometry points fans out into three records sharing title and source. -/
theorem wildfire_fanout_valid_points_witness :
    ∃ u l, wildfireSourceUrl threePointWildfireEvent = Except.ok u ∧
      wildfireEventRecords threePointWildfireEvent = Except.ok l ∧
      l.length = (threePointWildfireEvent.geometry.getD []).length ∧
      ∀ r ∈ l, r.title = threePointWildfireEvent.title.getD "Wildfire" ∧ r.source = u :=
  wildfire_fanout_valid_points threePointWildfireEvent (by decide) (by decide)
